import Mathlib

/-!
# Verification of the record-python revision diff engine

Shallow embedding of `Storage.revision_generate` from `src/record/storage.py`
(the only concrete algorithm of the repository; every other method of the
`Storage` class is an abstract stub).

Python values handled by the function are modelled by the inductive `Value`
below: `None`, booleans, integers, strings, lists, and dicts.  A Python dict
is modelled as an association list of string/value pairs in insertion order
(Python dicts preserve insertion order and have no duplicate keys, so
theorems that depend on dict semantics take a `Nodup` hypothesis on the key
list).  Python `==` on the scalars that reach the equality test is modelled
as structural equality.

`revision_generate` is a `@classmethod` on `Storage`; its recursive step
reads the attribute `cls.generate_changes`, which is defined neither on
`Storage` nor on any of its bases, so evaluating it raises `AttributeError`.
The embedding therefore returns in the `Except Unit` monad, and the attribute
lookup is the one source of `Except.error`.
-/

/-- The space of Python values the diff engine operates on: `None`, `bool`,
`int`, `str`, `list`, and `dict` (as an insertion-ordered association list). -/
inductive Value where
  | vnull : Value
  | vbool : Bool → Value
  | vint : Int → Value
  | vstr : String → Value
  | vlist : List Value → Value
  | vdict : List (String × Value) → Value

namespace Value

/-- Python `isinstance(v, dict)`. -/
def isDict : Value → Bool
  | .vdict _ => true
  | _ => false

/-- Python `isinstance(v, list)`. -/
def isList : Value → Bool
  | .vlist _ => true
  | _ => false

/-- Python `isinstance(v, (dict, list))`. -/
def isContainer : Value → Bool
  | .vdict _ => true
  | .vlist _ => true
  | _ => false

end Value

/-- Python `new != old` as evaluated by the final branch of
`revision_generate` (storage.py line 270).  There the `or` has already
short-circuited when `new` is a dict or list, and `old` reaches the branch
only when it is neither, so both operands are scalars; scalar `==` is
modelled as structural equality. -/
def scalarEq : Value → Value → Bool
  | .vnull, .vnull => true
  | .vbool a, .vbool b => a == b
  | .vint a, .vint b => a == b
  | .vstr a, .vstr b => a == b
  | _, _ => false

/-- The terminal pair `{ 'old': o, 'new': n }` built at several places of
`revision_generate`. -/
def oldNewPair (o n : Value) : Value :=
  .vdict [("old", o), ("new", n)]

/-- The keys of a modelled dict, in insertion order: `list(d.keys())`. -/
def dictKeys (d : List (String × Value)) : List String :=
  d.map Prod.fst

/-- Membership `k in d` for a Python dict `d`. -/
def dictMem (d : List (String × Value)) (k : String) : Bool :=
  (dictKeys d).contains k

/-- Lookup `d[k]` for a Python dict `d`: the value of the first entry whose key is
`k` (the only one, for a genuine dict).  The `vnull` default is never
reached by `revision_generate`, which tests membership first. -/
def dictGet (d : List (String × Value)) (k : String) : Value :=
  match d.find? (fun p => p.1 = k) with
  | some p => p.2
  | none => .vnull

/-- Assignment `d[k] = v` for a Python dict `d`: overwrite in place if the key exists,
append otherwise. -/
def dictSet (d : List (String × Value)) (k : String) (v : Value) : List (String × Value) :=
  if dictMem d k then
    d.map (fun p => if p.1 = k then (k, v) else p)
  else
    d ++ [(k, v)]

/-- The attribute lookup `cls.generate_changes` in the recursive step of
`revision_generate`: no class in the repository defines `generate_changes`,
so evaluating the call raises `AttributeError`, modelled as `Except.error`. -/
def generate_changes (_old _new : Value) : Except Unit (Option Value) :=
  .error ()

/-- The loop `for k in old:` of the dict branch (storage.py lines 193-207).
State threads `(dRet, lNewKeys)`; a key absent from `new` stores a terminal
pair, a shared key calls `cls.generate_changes` and removes the key from
`lNewKeys`, keeping the result only when truthy (`if dTemp:`; the recursive
call can only produce `None` or a non-empty dict, so truthiness is
`Option.isSome` here). -/
def dictOldLoop (dnew : List (String × Value)) :
    List (String × Value) → List (String × Value) × List String →
    Except Unit (List (String × Value) × List String)
  | [], acc => .ok acc
  | (k, v) :: rest, (dRet, lNewKeys) =>
    if dictMem dnew k then do
      let dTemp ← generate_changes v (dictGet dnew k)
      match dTemp with
      | some t => dictOldLoop dnew rest (dictSet dRet k t, lNewKeys.erase k)
      | none => dictOldLoop dnew rest (dRet, lNewKeys.erase k)
    else
      dictOldLoop dnew rest (dictSet dRet k (oldNewPair v .vnull), lNewKeys)

/-- The loop `for k in lNewKeys:` of the dict branch (storage.py lines
210-212): each key left over from `new` stores `{ 'old': None, 'new': new[k] }`. -/
def dictNewLoop (dnew : List (String × Value)) (ks : List String)
    (dRet : List (String × Value)) : List (String × Value) :=
  ks.foldl (fun acc k => dictSet acc k (oldNewPair .vnull (dictGet dnew k))) dRet

/-- The loop `for i in range(iOldLen):` of the list branch (storage.py lines
239-250), carrying the current index.  An index at or past the end of `new`
stores a terminal pair; otherwise `cls.generate_changes` is called. -/
def listOldLoop (lnew : List Value) :
    List Value → Nat → List (String × Value) →
    Except Unit (List (String × Value))
  | [], _, dRet => .ok dRet
  | v :: rest, i, dRet =>
    if h : i < lnew.length then do
      let dTemp ← generate_changes v (lnew.get ⟨i, h⟩)
      match dTemp with
      | some t => listOldLoop lnew rest (i + 1) (dictSet dRet (toString i) t)
      | none => listOldLoop lnew rest (i + 1) dRet
    else
      listOldLoop lnew rest (i + 1) (dictSet dRet (toString i) (oldNewPair v .vnull))

/-- The values of `new` past the end of `old`, paired with their stringified
indices: the entries stored by `for i in range(iOldLen, iNewLen):`
(storage.py lines 253-255). -/
def listTailEntries : Nat → List Value → List (String × Value)
  | _, [] => []
  | i, v :: rest => (toString i, oldNewPair .vnull v) :: listTailEntries (i + 1) rest

/-- The expression `iOldLen > iNewLen and iOldLen or iNewLen` (storage.py lines 216 and
259).  Since `iOldLen > iNewLen` forces `iOldLen > 0`, the Python
truthiness quirk of `and`/`or` cannot fire and this is `max`. -/
def pyMaxKeys (iOldLen iNewLen : Nat) : Nat :=
  if iOldLen > iNewLen then iOldLen else iNewLen

/-- The dict/dict branch of `revision_generate` (storage.py lines 176-222),
after the `isinstance(new, dict)` test has succeeded. -/
def revisionDict (dold dnew : List (String × Value)) : Except Unit (Option Value) := do
  let iOldLen := (dictKeys dold).length
  let iNewLen := (dictKeys dnew).length
  let acc ← dictOldLoop dnew dold ([], dictKeys dnew)
  let dRet := dictNewLoop dnew acc.2 acc.1
  if dRet.length ≥ pyMaxKeys iOldLen iNewLen then
    pure (some (oldNewPair (.vdict dold) (.vdict dnew)))
  else if dRet.isEmpty then
    pure none
  else
    pure (some (.vdict dRet))

/-- The list/list branch of `revision_generate` (storage.py lines 225-264),
after the `isinstance(new, list)` test has succeeded. -/
def revisionList (lold lnew : List Value) : Except Unit (Option Value) := do
  let iOldLen := lold.length
  let iNewLen := lnew.length
  let dRet0 ← listOldLoop lnew lold 0 []
  let dRet := (listTailEntries iOldLen (lnew.drop iOldLen)).foldl
    (fun acc p => dictSet acc p.1 p.2) dRet0
  if dRet.length ≥ pyMaxKeys iOldLen iNewLen then
    pure (some (oldNewPair (.vlist lold) (.vlist lnew)))
  else if dRet.isEmpty then
    pure none
  else
    pure (some (.vdict dRet))

/-- The classmethod `Storage.revision_generate(old, new)` (storage.py lines 161-274).
`Except.error ()` models the `AttributeError` raised when the recursive step
reaches the undefined `cls.generate_changes`; `Except.ok none` models the
final `return None`. -/
def revision_generate (old new : Value) : Except Unit (Option Value) :=
  match old with
  | .vdict dold =>
    match new with
    | .vdict dnew => revisionDict dold dnew
    | _ => .ok (some (oldNewPair old new))
  | .vlist lold =>
    match new with
    | .vlist lnew => revisionList lold lnew
    | _ => .ok (some (oldNewPair old new))
  | _ =>
    if new.isContainer then
      .ok (some (oldNewPair old new))
    else if scalarEq new old then
      .ok none
    else
      .ok (some (oldNewPair old new))

/-! ## Helper lemmas about the loops -/

/-- Assignment `dRet[k] = v` never leaves the dict empty. -/
theorem dictSet_ne_nil (d : List (String × Value)) (k : String) (v : Value) :
    dictSet d k v ≠ [] := by
  unfold dictSet
  split
  · rename_i hmem
    intro h
    rw [List.map_eq_nil_iff] at h
    subst h
    simp [dictMem, dictKeys] at hmem
  · simp

/-- A left fold of a step that never returns the empty dict is empty only
when it started empty and folded over nothing. -/
theorem foldl_eq_nil {α : Type} (f : List (String × Value) → α → List (String × Value))
    (hf : ∀ acc x, f acc x ≠ []) :
    ∀ (xs : List α) (d : List (String × Value)),
    xs.foldl f d = [] → d = [] ∧ xs = [] := by
  intro xs
  induction xs with
  | nil => intro d h; exact ⟨h, rfl⟩
  | cons x rest ih =>
    intro d h
    rw [List.foldl_cons] at h
    exact absurd (ih _ h).1 (hf d x)

/-- A successful pass of the `for k in old:` loop took the key-missing
branch at every step (a shared key raises through `cls.generate_changes`),
so it leaves `lNewKeys` untouched and only ever grows `dRet`; in
particular an empty final `dRet` means an empty initial `dRet` and an
empty `old`. -/
theorem dictOldLoop_ok_nil (dnew : List (String × Value)) :
    ∀ (dold : List (String × Value)) (d : List (String × Value)) (ks : List String)
      (acc : List (String × Value) × List String),
    dictOldLoop dnew dold (d, ks) = .ok acc → acc.1 = [] →
    d = [] ∧ dold = [] ∧ acc.2 = ks := by
  intro dold
  induction dold with
  | nil =>
    intro d ks acc h hnil
    injection h with h
    subst h
    exact ⟨hnil, rfl, rfl⟩
  | cons p rest ih =>
    intro d ks acc h hnil
    obtain ⟨k, v⟩ := p
    by_cases hm : dictMem dnew k
    · simp [dictOldLoop, hm, generate_changes, Bind.bind, Except.bind] at h
    · simp only [dictOldLoop, hm, if_neg, Bool.false_eq_true, not_false_iff, ite_false] at h
      exact absurd (ih _ _ _ h hnil).1 (dictSet_ne_nil _ _ _)

/-- A successful pass of the `for i in range(iOldLen):` loop took the
index-out-of-bounds branch at every step, so an empty final `dRet` means an
empty initial `dRet` and an empty `old`. -/
theorem listOldLoop_ok_nil (lnew : List Value) :
    ∀ (lold : List Value) (i : Nat) (d d2 : List (String × Value)),
    listOldLoop lnew lold i d = .ok d2 → d2 = [] → d = [] ∧ lold = [] := by
  intro lold
  induction lold with
  | nil =>
    intro i d d2 h hnil
    injection h with h
    subst h
    exact ⟨hnil, rfl⟩
  | cons v rest ih =>
    intro i d d2 h hnil
    by_cases hi : i < lnew.length
    · simp [listOldLoop, hi, generate_changes, Bind.bind, Except.bind] at h
    · simp only [listOldLoop, hi, dite_false, dif_neg, not_false_iff] at h
      exact absurd (ih _ _ _ h hnil).1 (dictSet_ne_nil _ _ _)

/-- The trailing entries of `new` vanish only when nothing trails. -/
theorem listTailEntries_eq_nil (i : Nat) (xs : List Value) :
    listTailEntries i xs = [] → xs = [] := by
  cases xs with
  | nil => intro _; rfl
  | cons v rest => intro h; exact absurd h (by simp [listTailEntries])

/-- The dict/dict branch never reaches the final `return None`: with both
dicts empty the collapse test `0 >= 0` fires first, and any entry anywhere
either errors through `cls.generate_changes` or leaves a change in `dRet`. -/
theorem revisionDict_never_none (dold dnew : List (String × Value)) :
    revisionDict dold dnew ≠ .ok none := by
  intro h
  unfold revisionDict at h
  cases hloop : dictOldLoop dnew dold ([], dictKeys dnew) with
  | error e => rw [hloop] at h; simp [Bind.bind, Except.bind] at h
  | ok acc =>
    rw [hloop] at h
    simp only [Bind.bind, Except.bind] at h
    split at h
    · simp [pure, Except.pure] at h
    · split at h
      · rename_i hcol hemp
        rw [List.isEmpty_iff] at hemp
        have h2 := foldl_eq_nil _ (fun acc k => dictSet_ne_nil acc k _) acc.2 acc.1 hemp
        have h3 := dictOldLoop_ok_nil dnew dold [] (dictKeys dnew) acc hloop h2.1
        apply hcol
        have hnewnil : dictKeys dnew = [] := by rw [← h3.2.2, h2.2]
        rw [hemp, h3.2.1, hnewnil]
        simp [pyMaxKeys, dictKeys]
      · simp [pure, Except.pure] at h

/-- The list/list branch never reaches the final `return None`, for the
same reasons as the dict/dict branch. -/
theorem revisionList_never_none (lold lnew : List Value) :
    revisionList lold lnew ≠ .ok none := by
  intro h
  unfold revisionList at h
  cases hloop : listOldLoop lnew lold 0 [] with
  | error e => rw [hloop] at h; simp [Bind.bind, Except.bind] at h
  | ok d0 =>
    rw [hloop] at h
    simp only [Bind.bind, Except.bind] at h
    split at h
    · simp [pure, Except.pure] at h
    · split at h
      · rename_i hcol hemp
        rw [List.isEmpty_iff] at hemp
        have h2 := foldl_eq_nil _ (fun acc p => dictSet_ne_nil acc p.1 p.2)
          (listTailEntries lold.length (lnew.drop lold.length)) d0 hemp
        have h3 := listOldLoop_ok_nil lnew lold 0 [] d0 hloop h2.1
        have h4 := listTailEntries_eq_nil _ _ h2.2
        apply hcol
        rw [hemp]
        have hnewnil : lnew = [] := by
          rw [h3.2] at h4
          simpa using h4
        simp [h3.2, hnewnil, pyMaxKeys]
      · simp [pure, Except.pure] at h

/-! ## Claim theorems -/

/-- C1 (counterexample): the claim states `revision_generate(x, x)` is
`None` for every mapping `x`, and in particular that two empty mappings
diff to `None`.  On the code, two empty mappings reach the collapse test
with `0 >= max(0, 0)`, which holds, so the result is the terminal
`{ 'old': {}, 'new': {} }` pair, not `None`. -/
theorem C1_empty_dict_not_none :
    revision_generate (.vdict []) (.vdict []) ≠ .ok none := by
  intro h
  exact Option.noConfusion (Except.ok.inj h)

/-- C1 (amended): `revision_generate(x, x)` is `None` for every scalar
`x`, but for the empty mapping (and the empty sequence) it returns the
terminal `{ 'old': x, 'new': x }` pair instead of `None`; and whenever
`revision_generate(old, new)` does return `None`, both operands were
scalars and equal. -/
theorem C1_reflexivity_scalars_only :
    (∀ x : Value, x.isContainer = false → revision_generate x x = .ok none) ∧
    revision_generate (.vdict []) (.vdict [])
      = .ok (some (oldNewPair (.vdict []) (.vdict []))) ∧
    revision_generate (.vlist []) (.vlist [])
      = .ok (some (oldNewPair (.vlist []) (.vlist []))) ∧
    (∀ a b : Value, revision_generate a b = .ok none →
      a.isContainer = false ∧ b.isContainer = false ∧ scalarEq b a = true) := by
  refine ⟨?_, rfl, rfl, ?_⟩
  · intro x hx
    cases x <;> simp_all [revision_generate, Value.isContainer, scalarEq]
  · intro a b h
    cases a with
    | vdict dold =>
      exfalso
      cases b <;> simp_all [revision_generate]
      exact revisionDict_never_none dold _ h
    | vlist lold =>
      exfalso
      cases b <;> simp_all [revision_generate]
      exact revisionList_never_none lold _ h
    | vnull =>
      cases b <;>
        simp_all [revision_generate, Value.isContainer, scalarEq]
    | vbool x =>
      cases b <;>
        simp_all [revision_generate, Value.isContainer, scalarEq]
    | vint x =>
      cases b <;>
        simp_all [revision_generate, Value.isContainer, scalarEq]
    | vstr x =>
      cases b <;>
        simp_all [revision_generate, Value.isContainer, scalarEq]

/-- C1 (witness): the amended reflexivity applied at the scalar `5`. -/
theorem C1_reflexivity_witness :
    Value.isContainer (.vint 5) = false ∧
    revision_generate (.vint 5) (.vint 5) = .ok none :=
  ⟨rfl, C1_reflexivity_scalars_only.1 (.vint 5) rfl⟩

/-- C2: on the pair of equal singleton dicts `{'a': 1}`, `{'a': 1}` the
shared key `'a'` sends `revision_generate` into the recursive step, whose
attribute lookup `cls.generate_changes` raises `AttributeError`; the call
does not return a defined result. -/
theorem C2_raises_on_shared_key :
    revision_generate (.vdict [("a", .vint 1)]) (.vdict [("a", .vint 1)])
      = .error () := rfl

/-- C3: on the claim's own example `{'a':1,'b':2}` vs `{'a':1,'b':3}` the
first shared key already raises `AttributeError` through the undefined
`cls.generate_changes`, instead of producing `{'b': {'old':2,'new':3}}`. -/
theorem C3_example_raises :
    revision_generate (.vdict [("a", .vint 1), ("b", .vint 2)])
      (.vdict [("a", .vint 1), ("b", .vint 3)]) = .error () := rfl

/-- C4: on `{'a':1}` vs `{'a':2}` the collapse law says the result is the
terminal `{'old':{'a':1},'new':{'a':2}}` (one differing key out of
`max(1,1)`), but the shared key raises `AttributeError` before any count
is taken. -/
theorem C4_collapse_unreachable :
    revision_generate (.vdict [("a", .vint 1)]) (.vdict [("a", .vint 2)])
      = .error () := rfl

/-- C5: on the claim's own example `[1,2,3]` vs `[1,2]` the first shared
index already raises `AttributeError` through the undefined
`cls.generate_changes`, instead of producing `{'2': {'old':3,'new':None}}`. -/
theorem C5_example_raises :
    revision_generate (.vlist [.vint 1, .vint 2, .vint 3])
      (.vlist [.vint 1, .vint 2]) = .error () := rfl

/-- C6: whenever the container kinds of the two operands differ — `old` a
dict and `new` not a dict, `old` a list and `new` not a list, or `old` a
scalar and `new` a container — `revision_generate` returns exactly the
terminal `{ 'old': old, 'new': new }` pair. -/
theorem C6_type_mismatch_terminal (old new : Value)
    (h : (old.isDict = true ∧ new.isDict = false) ∨
         (old.isList = true ∧ new.isList = false) ∨
         (old.isContainer = false ∧ new.isContainer = true)) :
    revision_generate old new = .ok (some (oldNewPair old new)) := by
  cases old <;> cases new <;>
    simp_all [revision_generate, Value.isDict, Value.isList, Value.isContainer]

/-- C6 (witness): the dict `{}` against the scalar `1`. -/
theorem C6_type_mismatch_witness :
    ((Value.isDict (.vdict []) = true ∧ Value.isDict (.vint 1) = false) ∨
     (Value.isList (.vdict []) = true ∧ Value.isList (.vint 1) = false) ∨
     (Value.isContainer (.vdict []) = false ∧ Value.isContainer (.vint 1) = true)) ∧
    revision_generate (.vdict []) (.vint 1)
      = .ok (some (oldNewPair (.vdict []) (.vint 1))) :=
  ⟨Or.inl ⟨rfl, rfl⟩, C6_type_mismatch_terminal (.vdict []) (.vint 1) (Or.inl ⟨rfl, rfl⟩)⟩

/-- C8: the embedding of `revision_generate` is a function of its two
arguments alone — identical inputs give identical outputs (and the Python
original touches no state outside its arguments). -/
theorem C8_deterministic (a b a2 b2 : Value) (ha : a = a2) (hb : b = b2) :
    revision_generate a b = revision_generate a2 b2 := by
  rw [ha, hb]

/-- C8 (witness): determinism applied at `1` and `[2]`. -/
theorem C8_deterministic_witness :
    (Value.vint 1 = Value.vint 1) ∧ (Value.vlist [.vint 2] = Value.vlist [.vint 2]) ∧
    revision_generate (.vint 1) (.vlist [.vint 2])
      = revision_generate (.vint 1) (.vlist [.vint 2]) :=
  ⟨rfl, rfl, C8_deterministic (.vint 1) (.vlist [.vint 2]) (.vint 1) (.vlist [.vint 2]) rfl rfl⟩

/-- Membership `k in d` agrees with membership in the key list. -/
theorem dictMem_iff (d : List (String × Value)) (k : String) :
    dictMem d k = true ↔ k ∈ dictKeys d := by
  simp [dictMem]

/-- A successful dict/dict branch producing a value produced a dict: the
whole-replacement terminal pair or the itemized `dRet`. -/
theorem revisionDict_ok_some_isDict (dold dnew : List (String × Value)) (r : Value)
    (h : revisionDict dold dnew = .ok (some r)) : r.isDict = true := by
  unfold revisionDict at h
  cases hloop : dictOldLoop dnew dold ([], dictKeys dnew) with
  | error e => rw [hloop] at h; simp [Bind.bind, Except.bind] at h
  | ok acc =>
    rw [hloop] at h
    simp only [Bind.bind, Except.bind] at h
    split at h
    · simp only [pure, Except.pure, Except.ok.injEq, Option.some.injEq] at h
      subst h
      rfl
    · split at h
      · simp [pure, Except.pure] at h
      · simp only [pure, Except.pure, Except.ok.injEq, Option.some.injEq] at h
        subst h
        rfl

/-- A successful list/list branch producing a value produced a dict. -/
theorem revisionList_ok_some_isDict (lold lnew : List Value) (r : Value)
    (h : revisionList lold lnew = .ok (some r)) : r.isDict = true := by
  unfold revisionList at h
  cases hloop : listOldLoop lnew lold 0 [] with
  | error e => rw [hloop] at h; simp [Bind.bind, Except.bind] at h
  | ok d0 =>
    rw [hloop] at h
    simp only [Bind.bind, Except.bind] at h
    split at h
    · simp only [pure, Except.pure, Except.ok.injEq, Option.some.injEq] at h
      subst h
      rfl
    · split at h
      · simp [pure, Except.pure] at h
      · simp only [pure, Except.pure, Except.ok.injEq, Option.some.injEq] at h
        subst h
        rfl

/-- C9: every defined, non-`None` value `revision_generate` returns is a
mapping — a terminal `{ 'old', 'new' }` pair or an itemized dict of
changes — never a sequence, scalar, or boolean. -/
theorem C9_result_is_mapping (a b r : Value)
    (h : revision_generate a b = .ok (some r)) : r.isDict = true := by
  cases a <;> cases b <;>
    first
    | exact revisionDict_ok_some_isDict _ _ _ h
    | exact revisionList_ok_some_isDict _ _ _ h
    | (simp only [revision_generate] at h
       try split at h
       all_goals try split at h
       all_goals
         first
         | (simp only [Except.ok.injEq, Option.some.injEq] at h
            subst h
            rfl)
         | exact Option.noConfusion (Except.ok.inj h))

/-- C9 (witness): a scalar against a dict yields the terminal pair, a dict. -/
theorem C9_result_is_mapping_witness :
    revision_generate (.vint 0) (.vdict []) = .ok (some (oldNewPair (.vint 0) (.vdict []))) ∧
    Value.isDict (oldNewPair (.vint 0) (.vdict [])) = true :=
  ⟨rfl, C9_result_is_mapping (.vint 0) (.vdict []) (oldNewPair (.vint 0) (.vdict [])) rfl⟩

/-- Setting a fresh key appends it to the key list. -/
theorem dictKeys_dictSet_of_not_mem (d : List (String × Value)) (k : String) (v : Value)
    (h : k ∉ dictKeys d) :
    dictKeys (dictSet d k v) = dictKeys d ++ [k] := by
  have hm : dictMem d k = false := by
    rw [Bool.eq_false_iff]
    intro hc
    exact h ((dictMem_iff d k).mp hc)
  simp [dictSet, hm, dictKeys]

/-- Folding entries with fresh, pairwise distinct keys into a dict appends
every key. -/
theorem dictKeys_foldl_dictSet {α : Type} (key : α → String) (val : α → Value) :
    ∀ (xs : List α) (d : List (String × Value)),
    (xs.map key).Nodup → (∀ x ∈ xs, key x ∉ dictKeys d) →
    dictKeys (xs.foldl (fun acc x => dictSet acc (key x) (val x)) d)
      = dictKeys d ++ xs.map key := by
  intro xs
  induction xs with
  | nil => intro d _ _; simp
  | cons x rest ih =>
    intro d hnd hfresh
    rw [List.foldl_cons]
    have hx : key x ∉ dictKeys d := hfresh x (List.mem_cons_self x rest)
    have hset := dictKeys_dictSet_of_not_mem d (key x) (val x) hx
    rw [List.map_cons, List.nodup_cons] at hnd
    have hfresh2 : ∀ y ∈ rest, key y ∉ dictKeys (dictSet d (key x) (val x)) := by
      intro y hy
      rw [hset]
      intro hmem
      rcases List.mem_append.mp hmem with h1 | h1
      · exact hfresh y (List.mem_cons_of_mem x hy) h1
      · rw [List.mem_singleton] at h1
        exact hnd.1 (h1 ▸ List.mem_map_of_mem key hy)
    rw [ih (dictSet d (key x) (val x)) hnd.2 hfresh2, hset, List.map_cons,
      List.append_assoc, List.singleton_append]

/-- When no key of `old` occurs in `new`, the `for k in old:` loop
succeeds, records a delete terminal per key, and leaves `lNewKeys` alone. -/
theorem dictOldLoop_of_disjoint (dnew : List (String × Value)) :
    ∀ (dold : List (String × Value)) (d : List (String × Value)) (ks : List String),
    (∀ k ∈ dictKeys dold, dictMem dnew k = false) →
    dictOldLoop dnew dold (d, ks) =
      .ok (dold.foldl (fun acc p => dictSet acc p.1 (oldNewPair p.2 .vnull)) d, ks) := by
  intro dold
  induction dold with
  | nil => intro d ks _; rfl
  | cons p rest ih =>
    intro d ks h
    obtain ⟨k, v⟩ := p
    have hk : dictMem dnew k = false := h k (by simp [dictKeys])
    simp only [dictOldLoop, hk, Bool.false_eq_true, if_false, ite_false, List.foldl_cons]
    exact ih _ _ (fun k2 hk2 => h k2 (by simp [dictKeys] at hk2 ⊢; exact Or.inr hk2))

/-- C7: two mappings with disjoint key sets (at least one non-empty) always
collapse: every key of `old` is a delete, every key of `new` an insert, so
the differing-key count is `|old| + |new| >= max(|old|, |new|)` and the
result is the full-replacement terminal pair. -/
theorem C7_disjoint_mappings_collapse (dold dnew : List (String × Value))
    (hold : (dictKeys dold).Nodup) (hnew : (dictKeys dnew).Nodup)
    (hdisj : ∀ k ∈ dictKeys dold, k ∉ dictKeys dnew)
    (hne : dold ≠ [] ∨ dnew ≠ []) :
    revision_generate (.vdict dold) (.vdict dnew)
      = .ok (some (oldNewPair (.vdict dold) (.vdict dnew))) := by
  clear hne
  have hmiss : ∀ k ∈ dictKeys dold, dictMem dnew k = false := by
    intro k hk
    rw [Bool.eq_false_iff]
    intro hc
    exact hdisj k hk ((dictMem_iff dnew k).mp hc)
  show revisionDict dold dnew = _
  unfold revisionDict
  rw [dictOldLoop_of_disjoint dnew dold [] (dictKeys dnew) hmiss]
  simp only [Bind.bind, Except.bind]
  have hk1 : dictKeys (dold.foldl
      (fun acc p => dictSet acc p.1 (oldNewPair p.2 .vnull)) [])
      = dictKeys dold := by
    have := dictKeys_foldl_dictSet (fun p : String × Value => p.1)
      (fun p => oldNewPair p.2 .vnull) dold [] hold (by simp [dictKeys])
    simpa [dictKeys] using this
  have hk2 : dictKeys (dictNewLoop dnew (dictKeys dnew)
      (dold.foldl (fun acc p => dictSet acc p.1 (oldNewPair p.2 .vnull)) []))
      = dictKeys dold ++ dictKeys dnew := by
    unfold dictNewLoop
    have := dictKeys_foldl_dictSet (fun k : String => k)
      (fun k => oldNewPair .vnull (dictGet dnew k)) (dictKeys dnew)
      (dold.foldl (fun acc p => dictSet acc p.1 (oldNewPair p.2 .vnull)) [])
      (by simpa using hnew)
      (by
        intro k hk
        rw [hk1]
        intro hmem
        exact hdisj k hmem hk)
    simpa [hk1] using this
  have hlen : (dictNewLoop dnew (dictKeys dnew)
      (dold.foldl (fun acc p => dictSet acc p.1 (oldNewPair p.2 .vnull)) [])).length
      = dold.length + dnew.length := by
    have := congrArg List.length hk2
    simpa [dictKeys] using this
  have hcond : (dictNewLoop dnew (dictKeys dnew)
      (dold.foldl (fun acc p => dictSet acc p.1 (oldNewPair p.2 .vnull)) [])).length
      ≥ pyMaxKeys (dictKeys dold).length (dictKeys dnew).length := by
    rw [hlen]
    unfold pyMaxKeys
    simp only [dictKeys, List.length_map]
    split <;> omega
  rw [if_pos hcond]
  rfl

/-- C7 (witness): the spec's own example `diff({}, {'a': 1})`. -/
theorem C7_disjoint_mappings_witness :
    (dictKeys ([] : List (String × Value))).Nodup ∧
    (dictKeys [("a", Value.vint 1)]).Nodup ∧
    (∀ k ∈ dictKeys ([] : List (String × Value)), k ∉ dictKeys [("a", Value.vint 1)]) ∧
    (([] : List (String × Value)) ≠ [] ∨ [("a", Value.vint 1)] ≠ []) ∧
    revision_generate (.vdict []) (.vdict [("a", .vint 1)])
      = .ok (some (oldNewPair (.vdict []) (.vdict [("a", .vint 1)]))) :=
  ⟨by simp [dictKeys], by simp [dictKeys], by simp [dictKeys], Or.inr (by simp),
   C7_disjoint_mappings_collapse [] [("a", .vint 1)] (by simp [dictKeys])
     (by simp [dictKeys]) (by simp [dictKeys]) (Or.inr (by simp))⟩

/-- If any key of `old` also occurs in `new`, the `for k in old:` loop
reaches the undefined `cls.generate_changes` and raises. -/
theorem dictOldLoop_error_of_shared (dnew : List (String × Value)) :
    ∀ (dold : List (String × Value)) (acc : List (String × Value) × List String),
    (∃ k, k ∈ dictKeys dold ∧ dictMem dnew k = true) →
    dictOldLoop dnew dold acc = .error () := by
  intro dold
  induction dold with
  | nil =>
    rintro acc ⟨k, hk, _⟩
    simp [dictKeys] at hk
  | cons p rest ih =>
    rintro ⟨d, ks⟩ ⟨k, hk, hmem⟩
    obtain ⟨k1, v1⟩ := p
    by_cases h1 : dictMem dnew k1 = true
    · simp [dictOldLoop, h1, generate_changes, Bind.bind, Except.bind]
    · have hk2 : k ∈ dictKeys rest := by
        rcases (by simpa [dictKeys] using hk : k = k1 ∨ k ∈ dictKeys rest) with h | h
        · exact absurd (h ▸ hmem) h1
        · exact h
      have h1f : dictMem dnew k1 = false := by simpa using h1
      simp only [dictOldLoop, h1f, Bool.false_eq_true, if_false, ite_false]
      exact ih (dictSet d k1 (oldNewPair v1 .vnull), ks) ⟨k, hk2, hmem⟩

/-- With a non-empty `new`, the very first index of a non-empty `old`
reaches the undefined `cls.generate_changes` and raises. -/
theorem listOldLoop_error_head (lnew : List Value) (v : Value) (rest : List Value)
    (d : List (String × Value)) (hnew : 0 < lnew.length) :
    listOldLoop lnew (v :: rest) 0 d = .error () := by
  simp [listOldLoop, hnew, generate_changes, Bind.bind, Except.bind]

/-- C10: the recursive step of `revision_generate` reads
`cls.generate_changes`, which no class of the repository defines, so any
two mappings sharing a key — and any two non-empty sequences — make the
call raise `AttributeError` instead of returning a diff. -/
theorem C10_recursion_attribute_error (dold dnew : List (String × Value))
    (lold lnew : List Value)
    (hshared : ∃ k, k ∈ dictKeys dold ∧ k ∈ dictKeys dnew)
    (hnonempty : lold ≠ [] ∧ lnew ≠ []) :
    revision_generate (.vdict dold) (.vdict dnew) = .error () ∧
    revision_generate (.vlist lold) (.vlist lnew) = .error () := by
  constructor
  · obtain ⟨k, hk1, hk2⟩ := hshared
    have herr := dictOldLoop_error_of_shared dnew dold ([], dictKeys dnew)
      ⟨k, hk1, (dictMem_iff dnew k).mpr hk2⟩
    show revisionDict dold dnew = _
    unfold revisionDict
    rw [herr]
    rfl
  · obtain ⟨hlo, hln⟩ := hnonempty
    obtain ⟨v, rest, rfl⟩ : ∃ v rest, lold = v :: rest := by
      cases lold with
      | nil => exact absurd rfl hlo
      | cons v rest => exact ⟨v, rest, rfl⟩
    have herr := listOldLoop_error_head lnew v rest [] (List.length_pos.mpr hln)
    show revisionList (v :: rest) lnew = _
    unfold revisionList
    rw [herr]
    rfl

/-- C10 (witness): `{'a': 1}` vs `{'a': 2}` and `[1]` vs `[2]`. -/
theorem C10_recursion_witness :
    (∃ k, k ∈ dictKeys [("a", Value.vint 1)] ∧ k ∈ dictKeys [("a", Value.vint 2)]) ∧
    (([Value.vint 1] : List Value) ≠ [] ∧ ([Value.vint 2] : List Value) ≠ []) ∧
    (revision_generate (.vdict [("a", .vint 1)]) (.vdict [("a", .vint 2)]) = .error () ∧
     revision_generate (.vlist [.vint 1]) (.vlist [.vint 2]) = .error ()) :=
  ⟨⟨"a", by simp [dictKeys], by simp [dictKeys]⟩, ⟨by simp, by simp⟩,
   C10_recursion_attribute_error [("a", .vint 1)] [("a", .vint 2)]
     [.vint 1] [.vint 2]
     ⟨"a", by simp [dictKeys], by simp [dictKeys]⟩ ⟨by simp, by simp⟩⟩
